import Mathlib

/-!
Shallow embedding of the certificate-lifecycle notification logic of the
`lemur` repository fragment (`lemur/notifications/messaging.py`,
`lemur/deployment/service.py`), together with proofs of properties of the
embedded functions.

Conventions of the embedding:
* Timestamps (`arrow` datetimes) are integers counting seconds; a Python
  `timedelta(days = d)` is `d * 86400` seconds, and `timedelta.days` is
  floor division of the total seconds by 86400 (`Int.fdiv`).
* Python values stored in notification options are modelled by `PyVal`
  (`None`, `int`, `str`).
* Python exceptions are modelled with `Except String`; a `try/except`
  block is a `match` on the `Except` result of its body.
* The database session is a list of `Certificate` rows; a query is a
  filter over that list.  `windowed_query` pages in windows of 10000 rows
  ordered by id and in the end yields every row of the query.
* External plugin behaviour (`plugin.send` succeeding or raising,
  `plugin.get_recipients`) and application configuration
  (`LEMUR_SECURITY_TEAM_EMAIL`, `LEMUR_DEFAULT_NOTIFICATION_PLUGIN`) are
  supplied by an `Env` record, and every plugin send that is attempted is
  recorded in a returned trace of `SendCall` values.
-/

/-- Python values that can appear as a notification option value. -/
inductive PyVal where
  | none
  | int (i : Int)
  | str (s : String)
deriving DecidableEq

/-- One entry of a notification's `options` list: a dict with a `name`
and a `value` key. -/
structure NotificationOption where
  name : String
  value : PyVal
deriving DecidableEq

/-- A notification plugin reference; only the slug is inspected by the
code under verification. -/
structure Plugin where
  slug : String
deriving DecidableEq

/-- The `Notification` configuration record. -/
structure Notification where
  label : String
  active : Bool
  options : List NotificationOption
  plugin : Plugin
  enable_rotation : Bool
deriving DecidableEq

/-- The `Certificate` row, restricted to the fields read by the code
under verification.  `not_after` is an epoch timestamp in seconds. -/
structure Certificate where
  name : String
  owner : String
  not_after : Int
  notify : Bool
  expired : Bool
  revoked : Bool
  root_authority_id : Option Nat
  authority_id : Option Nat
  notifications : List Notification
deriving DecidableEq

/-- Python `timedelta.days`: floor of the total seconds divided by the
seconds of one day. -/
def timedeltaDays (seconds : Int) : Int :=
  Int.fdiv seconds 86400

/-- Modelled from the spec: `get_plugin_option` from `lemur.plugins.utils`
(not under src/) reads the named option of a notification, returning the
option's value, or Python `None` when no option of that name exists. -/
def get_plugin_option (name : String) (options : List NotificationOption) : PyVal :=
  match options.find? (fun o => o.name == name) with
  | some o => o.value
  | Option.none => PyVal.none

/-- Python `*=` between an option value and an `Int`: integers multiply,
strings repeat, `None` raises a `TypeError`. -/
def pyMul : PyVal → Int → Except String PyVal
  | PyVal.int i, k => Except.ok (PyVal.int (i * k))
  | PyVal.str s, k => Except.ok (PyVal.str ((List.replicate k.toNat s).foldl (· ++ ·) ""))
  | PyVal.none, _ => Except.error "TypeError: unsupported operand types for *="

/-- Python `==` between an `int` and an option value: true exactly for an
equal `int`; comparisons against `None` or a `str` are `False`. -/
def pyEqInt (d : Int) : PyVal → Bool
  | PyVal.int i => d == i
  | _ => false

/-- The interval-in-days computation of `needs_expiration_notification`
for one notification: read `interval` and `unit`, multiply by 7 for
weeks and 30 for months, keep days as the base unit, and raise on any
other unit value. -/
def computeInterval (n : Notification) : Except String PyVal :=
  let interval := get_plugin_option "interval" n.options
  let unit := get_plugin_option "unit" n.options
  if unit = PyVal.str "weeks" then pyMul interval 7
  else if unit = PyVal.str "months" then pyMul interval 30
  else if unit = PyVal.str "days" then Except.ok interval
  else Except.error "Invalid base unit for expiration interval"

/-- The loop body of `needs_expiration_notification`: skip notifications
that are not active or have empty options, compute the interval in days
(possibly raising), and collect the notifications whose interval equals
the certificate's remaining days. -/
def scanNotifications (days : Int) : List Notification → Except String (List Notification)
  | [] => Except.ok []
  | n :: rest =>
    if !n.active || n.options.isEmpty then
      scanNotifications days rest
    else
      match computeInterval n with
      | Except.error e => Except.error e
      | Except.ok v =>
        match scanNotifications days rest with
        | Except.error e => Except.error e
        | Except.ok ns => Except.ok (if pyEqInt days v then n :: ns else ns)

/-- `needs_expiration_notification(certificate)`: the list of
notifications of the certificate that are currently due, or an exception
for an invalid interval unit. -/
def needs_expiration_notification (now : Int) (c : Certificate) :
    Except String (List Notification) :=
  scanNotifications (timedeltaDays (c.not_after - now)) c.notifications

/-- The unit factor named by the specification: 1 for days, 7 for weeks,
30 for months, undefined otherwise. -/
def unitFactor (u : String) : Option Int :=
  if u = "days" then some 1
  else if u = "weeks" then some 7
  else if u = "months" then some 30
  else none

/-- Validity of a `unit` option value as tested by the if/elif chain of
`needs_expiration_notification`. -/
def isValidUnit (v : PyVal) : Bool :=
  v == PyVal.str "weeks" || v == PyVal.str "months" || v == PyVal.str "days"

/-- SQL `Certificate.name.ilike('%e%')` for a literal exclusion substring
`e` (no `%`/`_` wildcard metacharacters): case-insensitive substring
containment. -/
def ilikeContains (name pat : String) : Bool :=
  decide (pat.toLower.toList <:+: name.toLower.toList)

/-- The SQLAlchemy filter chain of `get_certificates`: not after at most
90 days from now, notify set, not expired, not revoked, and name matching
no exclusion pattern (no condition is added when `exclude` is empty,
which coincides with `List.all`). -/
def certQueryFilter (now : Int) (exclude : List String) (c : Certificate) : Bool :=
  decide (c.not_after ≤ now + 90 * 86400) && c.notify && !c.expired && !c.revoked
    && exclude.all (fun e => !ilikeContains c.name e)

/-- Modelled from the spec: `windowed_query` from `lemur.common.utils`
(not under src/) pages through the query ordered by certificate id in
windows of 10000 rows; its net effect is to yield every row of the
query. -/
def windowed_query (rows : List Certificate) : List Certificate :=
  rows

/-- The loop of `get_certificates`: keep exactly the rows for which
`needs_expiration_notification` returns a non-empty (truthy) list,
propagating its exception. -/
def filterNeedsNotification (now : Int) : List Certificate → Except String (List Certificate)
  | [] => Except.ok []
  | c :: rest =>
    match needs_expiration_notification now c with
    | Except.error e => Except.error e
    | Except.ok ns =>
      match filterNeedsNotification now rest with
      | Except.error e => Except.error e
      | Except.ok cs => Except.ok (if ns.isEmpty then cs else c :: cs)

/-- `get_certificates(exclude)`: all certificates eligible for expiration
notifications, given the database rows, the current time and the
exclusion substrings. -/
def get_certificates (db : List Certificate) (now : Int) (exclude : List String) :
    Except String (List Certificate) :=
  filterNeedsNotification now (windowed_query (db.filter (certQueryFilter now exclude)))

/-- The SQLAlchemy filter chain of `get_expiring_authority_certificates`:
not after strictly below `now + max(intervals) + 1` days, notify set, not
expired, not revoked, a root authority and no direct authority. -/
def authorityQueryFilter (now : Int) (maxInterval : Int) (c : Certificate) : Bool :=
  decide (c.not_after < now + (maxInterval + 1) * 86400) && c.notify && !c.expired
    && !c.revoked && c.root_authority_id.isSome && c.authority_id.isNone

/-- `get_expiring_authority_certificates()`: authority certificates whose
remaining days equal one of the configured expiration intervals
(`LEMUR_AUTHORITY_CERT_EXPIRATION_EMAIL_INTERVALS`, default
`[365, 180]`).  Python `max` raises on an empty interval list. -/
def get_expiring_authority_certificates (db : List Certificate) (now : Int)
    (intervals : List Int) : Except String (List Certificate) :=
  match intervals with
  | [] => Except.error "ValueError: max() arg is an empty sequence"
  | i :: is =>
    let maxInterval := is.foldl max i
    Except.ok ((windowed_query (db.filter (authorityQueryFilter now maxInterval))).filter
      (fun c => intervals.contains (timedeltaDays (c.not_after - now))))

/-- Consecutive runs of equal keys, as produced by `itertools.groupby`:
each run is a maximal block of adjacent elements sharing a key. -/
def runsBy {α β : Type} [DecidableEq β] (key : α → β) : List α → List (β × List α)
  | [] => []
  | a :: rest =>
    match runsBy key rest with
    | [] => [(key a, [a])]
    | (k, g) :: t =>
      if key a = k then (k, a :: g) :: t else (key a, [a]) :: (k, g) :: t

/-- Assignment `d[k] = v` on a Python dict kept as an insertion-ordered
association list: overwrite in place or append. -/
def setKey {κ ι : Type} [DecidableEq κ] (k : κ) (v : ι) : List (κ × ι) → List (κ × ι)
  | [] => [(k, v)]
  | (k₀, v₀) :: t => if k = k₀ then (k, v) :: t else (k₀, v₀) :: setKey k v t

/-- The nested grouping dictionary built by
`get_eligible_authority_certificates`: owner, then interval, then the
certificate list. -/
def AuthorityGroups : Type :=
  List (String × List (Int × List Certificate))

/-- `certificates[owner][interval] = interval_certs` over a
`defaultdict(dict)`: fetch (or create empty) the owner's inner dict and
assign the interval key. -/
def setOwnerInterval (acc : AuthorityGroups) (owner : String) (interval : Int)
    (certs : List Certificate) : AuthorityGroups :=
  setKey owner (setKey interval certs ((acc.lookup owner).getD [])) acc

/-- `get_eligible_authority_certificates()`: group the expiring authority
certificates with `itertools.groupby` by owner, then by remaining-days
interval, into a nested dict.  `groupby` groups only consecutive runs;
the certificates arrive ordered by id, not by owner or interval. -/
def get_eligible_authority_certificates (db : List Certificate) (now : Int)
    (intervals : List Int) : Except String AuthorityGroups :=
  match get_expiring_authority_certificates db now intervals with
  | Except.error e => Except.error e
  | Except.ok all_certs =>
    Except.ok ((runsBy (fun c => c.owner) all_certs).foldl
      (fun acc og =>
        (runsBy (fun c => timedeltaDays (c.not_after - now)) og.2).foldl
          (fun acc2 ig => setOwnerInterval acc2 og.1 ig.1 ig.2) acc)
      [])

/-- One attempted call of a notification plugin's `send`, as recorded in
the trace of the dispatch functions.  `options` is the
`notification_options` argument (`none` models passing Python `None`). -/
structure SendCall (δ : Type) where
  slug : String
  event_type : String
  data : δ
  targets : List String
  options : Option (List NotificationOption)
deriving DecidableEq

/-- The external world of the dispatch functions: application
configuration, plugin send behaviour (raise or succeed, per call) and
plugin `get_recipients` behaviour (per plugin slug). -/
structure Env (δ : Type) where
  securityEmail : List String
  defaultPlugin : String
  sendRaises : SendCall δ → Bool
  recipients : String → List NotificationOption → List String → List String

/-- A raw `plugin.send` invocation: raises exactly when the environment
says this call raises. -/
def rawPluginSend {δ : Type} (env : Env δ) (call : SendCall δ) : Except String Unit :=
  if env.sendRaises call then Except.error "plugin send raised" else Except.ok ()

/-- `send_default_notification(notification_type, data, targets,
notification_options)`: send via the configured default plugin inside a
`try/except`; return `True` on success and a falsy `None` (here `false`)
on failure, together with the trace of attempted sends. -/
def send_default_notification {δ : Type} (env : Env δ) (notification_type : String)
    (data : δ) (targets : List String) (notification_options : Option (List NotificationOption)) :
    Except String (List (SendCall δ) × Bool) :=
  let call : SendCall δ :=
    ⟨env.defaultPlugin, notification_type, data, targets, notification_options⟩
  match rawPluginSend env call with
  | Except.ok _ => Except.ok ([call], true)
  | Except.error _ => Except.ok ([call], false)

/-- `send_plugin_notification(event_type, data, recipients,
notification)`: send via the notification's plugin inside a
`try/except`; when that plugin is not the email plugin, additionally
send a default email and succeed only if it succeeds. -/
def send_plugin_notification {δ : Type} (env : Env δ) (event_type : String) (data : δ)
    (recipients : List String) (notification : Notification) :
    Except String (List (SendCall δ) × Bool) :=
  let call : SendCall δ :=
    ⟨notification.plugin.slug, event_type, data, recipients, some notification.options⟩
  match rawPluginSend env call with
  | Except.error _ => Except.ok ([call], false)
  | Except.ok _ =>
    if notification.plugin.slug ≠ "email-notification" then
      match send_default_notification env event_type data recipients
          (some notification.options) with
      | Except.ok tb => Except.ok (call :: tb.1, tb.2)
      | Except.error _ => Except.ok ([call], false)
    else
      Except.ok ([call], true)

/-- The certificate data dict produced by the schema dump, restricted to
the keys read by the dispatch functions; `rest` stands for all other
keys. -/
structure CertData (δ : Type) where
  owner : String
  security_email : List String
  rest : δ
deriving DecidableEq

/-- `send_plugin_notification_with_email_fallback(data, notifications,
notification_type)`: with no active configured notification, email the
owner plus the security team via the default plugin; otherwise dispatch
the first active configured notification and return its result. -/
def send_plugin_notification_with_email_fallback {δ : Type} (env : Env (CertData δ))
    (data : CertData δ) (notifications : List Notification) (notification_type : String) :
    Except String (List (SendCall (CertData δ)) × Bool) :=
  let active_notifications := notifications.filter (fun n => n.active && !n.options.isEmpty)
  let data2 := { data with security_email := env.securityEmail }
  match active_notifications with
  | [] =>
    let email_recipients := data2.owner :: data2.security_email
    send_default_notification env notification_type data2 email_recipients none
  | n :: _ =>
    let email_recipients := env.recipients n.plugin.slug n.options data2.security_email
    send_plugin_notification env notification_type data2 email_recipients n

/-- `send_rotation_notification(certificate)`: nothing when notify is
unset; otherwise dispatch the first active, configured,
rotation-enabled notification (its plugin's recipients with no
additional ones) and return its result, or the falsy `None` when there
is none. -/
def send_rotation_notification {δ : Type} (env : Env (CertData δ)) (certificate : Certificate)
    (data : CertData δ) : Except String (List (SendCall (CertData δ)) × Bool) :=
  if !certificate.notify then Except.ok ([], false)
  else
    let data2 := { data with security_email := env.securityEmail }
    match certificate.notifications.find?
        (fun n => n.active && !n.options.isEmpty && n.enable_rotation) with
    | some n =>
      let email_recipients := env.recipients n.plugin.slug n.options []
      send_plugin_notification env "rotation" data2 email_recipients n
    | Option.none => Except.ok ([], false)

/-- An endpoint row, restricted to the fields around
`rotate_certificate`; `name` and `dnsname` stand for the remaining
fields, `source` for the source plugin slug. -/
structure Endpoint where
  name : String
  dnsname : String
  source : String
  certificate : Certificate
deriving DecidableEq

/-- One `database.update` call issued by `rotate_certificate`. -/
inductive DbOp where
  | updateEndpoint (e : Endpoint)
  | updateCertificate (c : Certificate)
deriving DecidableEq

/-- `rotate_certificate(endpoint, new_cert)` from
`lemur/deployment/service.py`: let the source plugin update the
endpoint (propagating its exception), attach the new certificate,
persist the endpoint, unset notify on the old certificate and persist
it.  Returns the updated endpoint, the updated old certificate and the
issued `database.update` calls. -/
def rotate_certificate (updateEndpointRaises : Endpoint → Certificate → Bool)
    (endpoint : Endpoint) (new_cert : Certificate) :
    Except String (Endpoint × Certificate × List DbOp) :=
  let old_cert := endpoint.certificate
  if updateEndpointRaises endpoint new_cert then
    Except.error "update_endpoint raised"
  else
    let endpoint2 := { endpoint with certificate := new_cert }
    let old2 := { old_cert with notify := false }
    Except.ok (endpoint2, old2, [DbOp.updateEndpoint endpoint2, DbOp.updateCertificate old2])

/-! Concrete sample data used to exercise the definitions. -/

/-- The email notification plugin. -/
def emailPlugin : Plugin := ⟨"email-notification"⟩

/-- A non-email notification plugin. -/
def slackPlugin : Plugin := ⟨"slack-notification"⟩

/-- An `interval` option entry. -/
def optInterval (i : Int) : NotificationOption := ⟨"interval", PyVal.int i⟩

/-- A `unit` option entry. -/
def optUnit (u : String) : NotificationOption := ⟨"unit", PyVal.str u⟩

/-- A sample 30-day email notification. -/
def notif30d : Notification :=
  ⟨"thirty days", true, [optInterval 30, optUnit "days"], emailPlugin, false⟩

/-- A sample active notification with an unrecognized unit. -/
def notifBadUnit : Notification :=
  ⟨"bad unit", true, [optInterval 2, optUnit "fortnights"], emailPlugin, false⟩

/-- A sample rotation-enabled one-day notification on a non-email
plugin. -/
def notifRotation : Notification :=
  ⟨"rotate", true, [optInterval 1, optUnit "days"], slackPlugin, true⟩

/-- A sample inactive notification. -/
def notifInactive : Notification :=
  ⟨"inactive", false, [optInterval 30, optUnit "days"], emailPlugin, false⟩

/-- A sample certificate expiring in 30 days (relative to time 0). -/
def cert30 : Certificate :=
  ⟨"cert30", "alice", 30 * 86400, true, false, false, Option.none, Option.none, [notif30d]⟩

/-- A sample expired certificate. -/
def certExpired : Certificate :=
  ⟨"certExpired", "alice", 30 * 86400, true, true, false, Option.none, Option.none, [notif30d]⟩

/-- A sample certificate whose only notification has an invalid unit. -/
def certBadUnit : Certificate :=
  ⟨"certBadUnit", "alice", 30 * 86400, true, false, false, Option.none, Option.none,
    [notifBadUnit]⟩

/-- A sample authority certificate 365 days from expiring. -/
def certA : Certificate :=
  ⟨"certA", "alice", 365 * 86400, true, false, false, some 1, Option.none, []⟩

/-- A sample authority certificate 180 days from expiring, same owner. -/
def certB : Certificate :=
  ⟨"certB", "alice", 180 * 86400, true, false, false, some 1, Option.none, []⟩

/-- A second sample authority certificate 365 days from expiring, same
owner, not adjacent to `certA` in id order. -/
def certC : Certificate :=
  ⟨"certC", "alice", 365 * 86400, true, false, false, some 1, Option.none, []⟩

/-- A sample environment over `Nat` data in which every send succeeds. -/
def envNat : Env Nat :=
  ⟨["security@example.com"], "email-notification", fun _ => false,
    fun _ _ add => "r@example.com" :: add⟩

/-- A sample environment over certificate data in which every send
succeeds. -/
def envCD : Env (CertData Unit) :=
  ⟨["security@example.com"], "email-notification", fun _ => false,
    fun _ _ add => "r@example.com" :: add⟩

/-- A sample certificate data dict. -/
def dataU : CertData Unit := ⟨"owner@example.com", [], ()⟩

/-- A sample endpoint carrying `cert30`. -/
def endpoint0 : Endpoint := ⟨"ep0", "ep0.example.com", "aws-source", cert30⟩

/-- A sample certificate with two qualifying notifications, the
rotation-enabled one first. -/
def certRot : Certificate :=
  ⟨"certRot", "alice", 30 * 86400, true, false, false, Option.none, Option.none,
    [notifRotation, notif30d]⟩

/-- A fresh sample certificate to rotate onto an endpoint. -/
def certNew : Certificate :=
  ⟨"certNew", "alice", 120 * 86400, true, false, false, Option.none, Option.none, []⟩

/-! Lemmas about `scanNotifications`. -/

/-- Every notification collected by a successful scan is in the input,
is active with non-empty options, and its interval computes to a value
equal to the remaining days. -/
lemma scanNotifications_ok_sound {days : Int} :
    ∀ {l ns : List Notification}, scanNotifications days l = Except.ok ns →
      ∀ n ∈ ns, n ∈ l ∧ n.active = true ∧ n.options ≠ [] ∧
        ∃ v, computeInterval n = Except.ok v ∧ pyEqInt days v = true := by
  intro l
  induction l with
  | nil =>
    intro ns h n hn
    simp only [scanNotifications] at h
    injection h with h
    subst h
    simp at hn
  | cons a rest ih =>
    intro ns h n hn
    unfold scanNotifications at h
    split at h
    · rcases ih h n hn with ⟨hmem, hrest⟩
      exact ⟨List.mem_cons_of_mem _ hmem, hrest⟩
    · rename_i hskip
      cases hcomp : computeInterval a with
      | error e => rw [hcomp] at h; cases h
      | ok v =>
        rw [hcomp] at h
        cases hrest : scanNotifications days rest with
        | error e => rw [hrest] at h; cases h
        | ok ns0 =>
          rw [hrest] at h
          injection h with h
          subst h
          have hact : a.active = true ∧ a.options ≠ [] := by
        
            simp only [Bool.or_eq_true, Bool.not_eq_true', List.isEmpty_iff] at hskip
            push_neg at hskip
            exact ⟨by simpa using hskip.1, hskip.2⟩
          by_cases hq : pyEqInt days v = true
          · rw [if_pos hq] at hn
            rcases List.mem_cons.mp hn with rfl | hn2
            · exact ⟨List.mem_cons_self _ _, hact.1, hact.2, v, hcomp, hq⟩
            · rcases ih hrest n hn2 with ⟨hmem, hconds⟩
              exact ⟨List.mem_cons_of_mem _ hmem, hconds⟩
          · rw [if_neg hq] at hn
            rcases ih hrest n hn with ⟨hmem, hconds⟩
            exact ⟨List.mem_cons_of_mem _ hmem, hconds⟩

/-- Every active, configured notification of the input whose interval
computes to the remaining days is collected by a successful scan. -/
lemma scanNotifications_ok_complete {days : Int} :
    ∀ {l ns : List Notification}, scanNotifications days l = Except.ok ns →
      ∀ n ∈ l, n.active = true → n.options ≠ [] →
        ∀ v, computeInterval n = Except.ok v → pyEqInt days v = true → n ∈ ns := by
  intro l
  induction l with
  | nil =>
    intro ns h n hn
    simp at hn
  | cons a rest ih =>
    intro ns h n hn hact hopt v hv hq
    unfold scanNotifications at h
    split at h
    · rename_i hskip
      rcases List.mem_cons.mp hn with rfl | hn2
      · exfalso
        simp only [Bool.or_eq_true, Bool.not_eq_true', List.isEmpty_iff] at hskip
        rcases hskip with h1 | h2
        · rw [hact] at h1; cases h1
        · exact hopt h2
      · exact ih h n hn2 hact hopt v hv hq
    · cases hcomp : computeInterval a with
      | error e => rw [hcomp] at h; cases h
      | ok va =>
        rw [hcomp] at h
        cases hrest : scanNotifications days rest with
        | error e => rw [hrest] at h; cases h
        | ok ns0 =>
          rw [hrest] at h
          injection h with h
          subst h
          rcases List.mem_cons.mp hn with rfl | hn2
          · rw [hv] at hcomp
            injection hcomp with hva
            rw [← hva, if_pos hq]
            exact List.mem_cons_self _ _
          · have hmem := ih hrest n hn2 hact hopt v hv hq
            by_cases hqa : pyEqInt days va = true
            · rw [if_pos hqa]; exact List.mem_cons_of_mem _ hmem
            · rw [if_neg hqa]; exact hmem

/-- If some active, configured notification of the input raises when its
interval is computed, the whole scan raises. -/
lemma scanNotifications_error_of_mem {days : Int} {e : String} :
    ∀ {l : List Notification} {n : Notification}, n ∈ l → n.active = true →
      n.options ≠ [] → computeInterval n = Except.error e →
      ∃ e2, scanNotifications days l = Except.error e2 := by
  intro l
  induction l with
  | nil =>
    intro n hn
    simp at hn
  | cons a rest ih =>
    intro n hn hact hopt hcomp
    unfold scanNotifications
    by_cases hskip : (!a.active || a.options.isEmpty) = true
    · rw [if_pos hskip]
      rcases List.mem_cons.mp hn with rfl | hn2
      · exfalso
        simp only [Bool.or_eq_true, Bool.not_eq_true', List.isEmpty_iff] at hskip
        rcases hskip with h1 | h2
        · rw [hact] at h1; cases h1
        · exact hopt h2
      · exact ih hn2 hact hopt hcomp
    · rw [if_neg hskip]
      rcases List.mem_cons.mp hn with rfl | hn2
      · rw [hcomp]
        exact ⟨e, rfl⟩
      · cases hca : computeInterval a with
        | error ea => exact ⟨ea, rfl⟩
        | ok va =>
          rcases ih hn2 hact hopt hcomp with ⟨e2, h2⟩
          rw [h2]
          exact ⟨e2, rfl⟩

/-- With an integer `interval` option and a recognized `unit` option, the
interval computation returns the interval times the unit factor. -/
lemma computeInterval_of_config {n : Notification} {i : Int} {u : String} {f : Int}
    (hi : get_plugin_option "interval" n.options = PyVal.int i)
    (hu : get_plugin_option "unit" n.options = PyVal.str u)
    (hf : unitFactor u = some f) :
    computeInterval n = Except.ok (PyVal.int (i * f)) := by
  unfold computeInterval
  simp only [hi, hu]
  unfold unitFactor at hf
  split_ifs at hf with h1 h2 h3
  · injection hf with hf1
    subst h1
    rw [if_neg (by decide), if_neg (by decide), if_pos rfl, ← hf1, mul_one]
  · injection hf with hf1
    subst h2
    rw [if_pos rfl]
    unfold pyMul
    rw [← hf1]
  · injection hf with hf1
    subst h3
    rw [if_neg (by decide), if_pos rfl]
    unfold pyMul
    rw [← hf1]

/-- With a `unit` option value that is none of the three recognized unit
strings, the interval computation raises. -/
lemma computeInterval_invalid_unit {n : Notification} {v : PyVal}
    (hu : get_plugin_option "unit" n.options = v) (hv : isValidUnit v = false) :
    computeInterval n = Except.error "Invalid base unit for expiration interval" := by
  unfold computeInterval
  simp only [hu]
  unfold isValidUnit at hv
  simp only [Bool.or_eq_false_iff, beq_eq_false_iff_ne, ne_eq] at hv
  rw [if_neg hv.1.1, if_neg hv.1.2, if_neg hv.2]

/-! Lemmas about the eligibility loop of `get_certificates`. -/

/-- Membership in a successful run of the eligibility loop: exactly the
input rows with a non-empty due-notification list. -/
lemma filterNeedsNotification_mem {now : Int} :
    ∀ {l cs : List Certificate}, filterNeedsNotification now l = Except.ok cs →
      ∀ c, c ∈ cs ↔ c ∈ l ∧
        ∃ ns, needs_expiration_notification now c = Except.ok ns ∧ ns ≠ [] := by
  intro l
  induction l with
  | nil =>
    intro cs h c
    simp only [filterNeedsNotification] at h
    injection h with h
    subst h
    simp
  | cons a rest ih =>
    intro cs h c
    unfold filterNeedsNotification at h
    cases hna : needs_expiration_notification now a with
    | error e => rw [hna] at h; cases h
    | ok nsa =>
      rw [hna] at h
      cases hr : filterNeedsNotification now rest with
      | error e => rw [hr] at h; cases h
      | ok cs0 =>
        rw [hr] at h
        injection h with h
        subst h
        by_cases hemp : nsa.isEmpty = true
        · rw [if_pos hemp, ih hr c]
          constructor
          · rintro ⟨hc, hp⟩
            exact ⟨List.mem_cons_of_mem _ hc, hp⟩
          · rintro ⟨hc, ns, hns, hne⟩
            rcases List.mem_cons.mp hc with rfl | hc2
            · exfalso
              rw [hna] at hns
              injection hns with hns
              subst hns
              exact hne (List.isEmpty_iff.mp hemp)
            · exact ⟨hc2, ns, hns, hne⟩
        · rw [if_neg hemp]
          constructor
          · intro hc
            rcases List.mem_cons.mp hc with rfl | hc2
            · refine ⟨List.mem_cons_self _ _, nsa, hna, ?_⟩
              intro hnil
              exact hemp (by rw [hnil]; rfl)
            · rcases (ih hr c).mp hc2 with ⟨hm, hp⟩
              exact ⟨List.mem_cons_of_mem _ hm, hp⟩
          · rintro ⟨hc, hp⟩
            rcases List.mem_cons.mp hc with rfl | hc2
            · exact List.mem_cons_self _ _
            · exact List.mem_cons_of_mem _ ((ih hr c).mpr ⟨hc2, hp⟩)

/-- If the due-notification check raises for some row of the input, the
whole eligibility loop raises. -/
lemma filterNeedsNotification_error_of_mem {now : Int} {c : Certificate} {e : String} :
    ∀ {l : List Certificate}, c ∈ l →
      needs_expiration_notification now c = Except.error e →
      ∃ e2, filterNeedsNotification now l = Except.error e2 := by
  intro l
  induction l with
  | nil =>
    intro hc
    simp at hc
  | cons a rest ih =>
    intro hc hne
    unfold filterNeedsNotification
    rcases List.mem_cons.mp hc with rfl | hc2
    · rw [hne]
      exact ⟨e, rfl⟩
    · cases hna : needs_expiration_notification now a with
      | error ea => exact ⟨ea, rfl⟩
      | ok nsa =>
        rcases ih hc2 hne with ⟨e2, h2⟩
        rw [h2]
        exact ⟨e2, rfl⟩

/-- C1: for every certificate and every notification attached to it (with
the exception-free scan returning `ns`, and the notification configured
with integer interval `i` and a recognized unit of factor `f`),
`needs_expiration_notification` includes the notification in its result
if and only if it is active, its options are non-empty, and the
certificate's remaining days equal `i * f` exactly. -/
theorem needs_expiration_notification_exact_match {now : Int} {c : Certificate}
    {n : Notification} {ns : List Notification} {i : Int} {u : String} {f : Int}
    (h : needs_expiration_notification now c = Except.ok ns)
    (hn : n ∈ c.notifications)
    (hi : get_plugin_option "interval" n.options = PyVal.int i)
    (hu : get_plugin_option "unit" n.options = PyVal.str u)
    (hf : unitFactor u = some f) :
    n ∈ ns ↔ (n.active = true ∧ n.options ≠ [] ∧
      timedeltaDays (c.not_after - now) = i * f) := by
  unfold needs_expiration_notification at h
  have hcomp := computeInterval_of_config hi hu hf
  constructor
  · intro hmem
    rcases scanNotifications_ok_sound h n hmem with ⟨-, hact, hopt, v, hv, hq⟩
    rw [hcomp] at hv
    injection hv with hv
    subst hv
    exact ⟨hact, hopt, eq_of_beq hq⟩
  · rintro ⟨hact, hopt, hdays⟩
    apply scanNotifications_ok_complete h n hn hact hopt _ hcomp
    show (timedeltaDays (c.not_after - now) == i * f) = true
    rw [hdays]
    exact beq_self_eq_true _

/-- C5: for every active, configured notification whose `unit` option is
not one of days, weeks or months, `needs_expiration_notification`
raises, and the exception is not caught on the eligibility-scanning
path: `get_certificates` raises as well whenever the certificate is in
the database and passes the query filters. -/
theorem needs_expiration_notification_invalid_unit_raises {now : Int} {c : Certificate}
    {n : Notification} {v : PyVal}
    (hn : n ∈ c.notifications) (hact : n.active = true) (hopt : n.options ≠ [])
    (hu : get_plugin_option "unit" n.options = v) (hv : isValidUnit v = false) :
    (∃ e, needs_expiration_notification now c = Except.error e) ∧
    ∀ db exclude, c ∈ db → certQueryFilter now exclude c = true →
      ∃ e2, get_certificates db now exclude = Except.error e2 := by
  have hcomp := computeInterval_invalid_unit hu hv
  have herr := @scanNotifications_error_of_mem (timedeltaDays (c.not_after - now)) _ _ _
    hn hact hopt hcomp
  constructor
  · exact herr
  · intro db exclude hdb hq
    rcases herr with ⟨e2, h2⟩
    exact filterNeedsNotification_error_of_mem (List.mem_filter.mpr ⟨hdb, hq⟩) h2

/-- C6: a successful `get_certificates` returns exactly the database
certificates that are notify-enabled, non-expired, non-revoked, expire
within 90 days, contain no exclusion substring in their name
(case-insensitively), and have at least one currently-due
notification. -/
theorem get_certificates_exact {db : List Certificate} {now : Int} {exclude : List String}
    {certs : List Certificate}
    (h : get_certificates db now exclude = Except.ok certs) (c : Certificate) :
    c ∈ certs ↔ (c ∈ db ∧ c.notify = true ∧ c.expired = false ∧ c.revoked = false ∧
      c.not_after ≤ now + 90 * 86400 ∧
      (∀ e ∈ exclude, ilikeContains c.name e = false) ∧
      ∃ ns, needs_expiration_notification now c = Except.ok ns ∧ ns ≠ []) := by
  unfold get_certificates windowed_query at h
  rw [filterNeedsNotification_mem h c, List.mem_filter]
  unfold certQueryFilter
  simp only [Bool.and_eq_true, decide_eq_true_eq, List.all_eq_true, Bool.not_eq_true']
  tauto

/-- C2: a certificate flagged expired or revoked, or with notify unset,
is never contained in a successful result of `get_certificates` nor of
`get_expiring_authority_certificates`. -/
theorem flagged_certificates_never_eligible {db : List Certificate} {now : Int}
    {exclude : List String} {intervals : List Int} {certs acerts : List Certificate}
    {c : Certificate}
    (hflag : c.expired = true ∨ c.revoked = true ∨ c.notify = false) :
    (get_certificates db now exclude = Except.ok certs → c ∉ certs) ∧
    (get_expiring_authority_certificates db now intervals = Except.ok acerts →
      c ∉ acerts) := by
  constructor
  · intro h hmem
    unfold get_certificates windowed_query at h
    rcases (filterNeedsNotification_mem h c).mp hmem with ⟨hmf, -⟩
    rcases List.mem_filter.mp hmf with ⟨-, hq⟩
    unfold certQueryFilter at hq
    simp only [Bool.and_eq_true, Bool.not_eq_true'] at hq
    rcases hq with ⟨⟨⟨⟨-, hnotify⟩, hexp⟩, hrev⟩, -⟩
    rcases hflag with h1 | h1 | h1
    · rw [h1] at hexp; cases hexp
    · rw [h1] at hrev; cases hrev
    · rw [h1] at hnotify; cases hnotify
  · intro h hmem
    cases intervals with
    | nil => cases h
    | cons i is =>
      unfold get_expiring_authority_certificates windowed_query at h
      simp only at h
      injection h with h
      subst h
      rcases List.mem_filter.mp hmem with ⟨hm1, -⟩
      rcases List.mem_filter.mp hm1 with ⟨-, hq⟩
      unfold authorityQueryFilter at hq
      simp only [Bool.and_eq_true, Bool.not_eq_true'] at hq
      rcases hq with ⟨⟨⟨⟨⟨-, hnotify⟩, hexp⟩, hrev⟩, -⟩, -⟩
      rcases hflag with h1 | h1 | h1
      · rw [h1] at hexp; cases hexp
      · rw [h1] at hrev; cases hrev
      · rw [h1] at hnotify; cases hnotify

/-! Lemmas characterizing the dispatch functions. -/

/-- A default-plugin send always returns: one recorded attempt, and true
exactly when that attempt did not raise. -/
lemma send_default_notification_eq {δ : Type} (env : Env δ) (ty : String) (data : δ)
    (targets : List String) (opts : Option (List NotificationOption)) :
    send_default_notification env ty data targets opts =
      Except.ok ([⟨env.defaultPlugin, ty, data, targets, opts⟩],
        !env.sendRaises ⟨env.defaultPlugin, ty, data, targets, opts⟩) := by
  unfold send_default_notification rawPluginSend
  by_cases h : env.sendRaises ⟨env.defaultPlugin, ty, data, targets, opts⟩ <;> simp [h]

/-- When the notification's own plugin raises, `send_plugin_notification`
returns the falsy result with just that attempt recorded. -/
lemma send_plugin_notification_raises {δ : Type} (env : Env δ) (ty : String) (data : δ)
    (recipients : List String) (n : Notification)
    (h : env.sendRaises ⟨n.plugin.slug, ty, data, recipients, some n.options⟩ = true) :
    send_plugin_notification env ty data recipients n =
      Except.ok ([⟨n.plugin.slug, ty, data, recipients, some n.options⟩], false) := by
  unfold send_plugin_notification rawPluginSend
  simp [h]

/-- When the email plugin itself succeeds, `send_plugin_notification`
returns true with just that attempt recorded. -/
lemma send_plugin_notification_ok_email {δ : Type} (env : Env δ) (ty : String) (data : δ)
    (recipients : List String) (n : Notification)
    (h : env.sendRaises ⟨n.plugin.slug, ty, data, recipients, some n.options⟩ = false)
    (hs : n.plugin.slug = "email-notification") :
    send_plugin_notification env ty data recipients n =
      Except.ok ([⟨n.plugin.slug, ty, data, recipients, some n.options⟩], true) := by
  rw [hs] at h
  unfold send_plugin_notification rawPluginSend
  simp [h, hs]

/-- When a non-email plugin succeeds, `send_plugin_notification` also
attempts a default email send with the same event type, data and
recipients, and succeeds exactly when it does. -/
lemma send_plugin_notification_ok_other {δ : Type} (env : Env δ) (ty : String) (data : δ)
    (recipients : List String) (n : Notification)
    (h : env.sendRaises ⟨n.plugin.slug, ty, data, recipients, some n.options⟩ = false)
    (hs : n.plugin.slug ≠ "email-notification") :
    send_plugin_notification env ty data recipients n =
      Except.ok ([⟨n.plugin.slug, ty, data, recipients, some n.options⟩,
          ⟨env.defaultPlugin, ty, data, recipients, some n.options⟩],
        !env.sendRaises ⟨env.defaultPlugin, ty, data, recipients, some n.options⟩) := by
  unfold send_plugin_notification send_default_notification
  by_cases hd : env.sendRaises ⟨env.defaultPlugin, ty, data, recipients, some n.options⟩ <;>
    simp [rawPluginSend, h, hs, hd]

/-- C3: neither `send_plugin_notification` nor
`send_default_notification` ever propagates an exception, whatever the
plugin send does; each returns a falsy value on any send failure and
`True` exactly when the send (including the secondary email send for a
non-email plugin) succeeded. -/
theorem dispatch_never_raises {δ : Type} (env : Env δ) (ty : String) (data : δ)
    (recipients targets : List String) (n : Notification)
    (opts : Option (List NotificationOption)) :
    (∃ tr b, send_plugin_notification env ty data recipients n = Except.ok (tr, b) ∧
      (b = true ↔
        (env.sendRaises ⟨n.plugin.slug, ty, data, recipients, some n.options⟩ = false ∧
          (n.plugin.slug = "email-notification" ∨
            env.sendRaises ⟨env.defaultPlugin, ty, data, recipients,
              some n.options⟩ = false)))) ∧
    (∃ tr b, send_default_notification env ty data targets opts = Except.ok (tr, b) ∧
      (b = true ↔ env.sendRaises ⟨env.defaultPlugin, ty, data, targets, opts⟩ = false)) := by
  constructor
  · by_cases h1 : env.sendRaises ⟨n.plugin.slug, ty, data, recipients, some n.options⟩ = true
    · exact ⟨_, false, send_plugin_notification_raises env ty data recipients n h1,
        by simp [h1]⟩
    · have h1f : env.sendRaises ⟨n.plugin.slug, ty, data, recipients, some n.options⟩ = false :=
        by simpa using h1
      by_cases h2 : n.plugin.slug = "email-notification"
      · refine ⟨_, true, send_plugin_notification_ok_email env ty data recipients n h1f h2, ?_⟩
        rw [h2] at h1f
        simp [h1f, h2]
      · refine ⟨_, _, send_plugin_notification_ok_other env ty data recipients n h1f h2, ?_⟩
        simp [h1f, h2, Bool.not_eq_true']
  · exact ⟨_, _, send_default_notification_eq env ty data targets opts, by simp⟩

/-- C4: for a notification on a non-email plugin whose own send does not
raise, `send_plugin_notification` additionally attempts a default email
send with the same event type, data and recipients, and reports success
exactly when that secondary send succeeds. -/
theorem secondary_email_send_attempted {δ : Type} (env : Env δ) (ty : String) (data : δ)
    (recipients : List String) (n : Notification)
    (hs : n.plugin.slug ≠ "email-notification")
    (h : env.sendRaises ⟨n.plugin.slug, ty, data, recipients, some n.options⟩ = false) :
    ∃ tr b, send_plugin_notification env ty data recipients n = Except.ok (tr, b) ∧
      (⟨env.defaultPlugin, ty, data, recipients, some n.options⟩ : SendCall δ) ∈ tr ∧
      (b = true ↔
        env.sendRaises ⟨env.defaultPlugin, ty, data, recipients, some n.options⟩ = false) := by
  refine ⟨_, _, send_plugin_notification_ok_other env ty data recipients n h hs, ?_, ?_⟩
  · simp
  · simp

/-- C7: when no notification is active with non-empty options, the
fallback path sends exactly one default-plugin email to the
certificate's owner plus the configured security-team addresses. -/
theorem fallback_sends_owner_and_security {δ : Type} (env : Env (CertData δ))
    (data : CertData δ) (notifications : List Notification) (ty : String)
    (hno : ∀ x ∈ notifications, ¬(x.active = true ∧ x.options ≠ [])) :
    ∃ b, send_plugin_notification_with_email_fallback env data notifications ty =
      Except.ok ([⟨env.defaultPlugin, ty, { data with security_email := env.securityEmail },
          data.owner :: env.securityEmail, none⟩], b) ∧
      (b = true ↔ env.sendRaises ⟨env.defaultPlugin, ty,
          { data with security_email := env.securityEmail },
          data.owner :: env.securityEmail, none⟩ = false) := by
  have hfil : notifications.filter (fun x => x.active && !x.options.isEmpty) = [] := by
    rw [List.filter_eq_nil_iff]
    intro a ha hcontra
    simp only [Bool.and_eq_true, Bool.not_eq_true', List.isEmpty_eq_false, ne_eq] at hcontra
    exact hno a ha ⟨hcontra.1, hcontra.2⟩
  unfold send_plugin_notification_with_email_fallback
  rw [hfil]
  exact ⟨_, send_default_notification_eq env ty _ _ none, by simp⟩

/-- The first element found by `find?` heads the `filter` result. -/
lemma filter_cons_of_find? {α : Type} {p : α → Bool} :
    ∀ {l : List α} {a : α}, l.find? p = some a → ∃ t, l.filter p = a :: t := by
  intro l
  induction l with
  | nil =>
    intro a h
    cases h
  | cons x xs ih =>
    intro a h
    by_cases hp : p x = true
    · rw [List.find?_cons_of_pos _ hp] at h
      injection h with h
      subst h
      rw [List.filter_cons_of_pos hp]
      exact ⟨_, rfl⟩
    · rw [List.find?_cons_of_neg _ hp] at h
      rcases ih h with ⟨t, ht⟩
      rw [List.filter_cons_of_neg hp, ht]
      exact ⟨t, rfl⟩

/-- C9: with several qualifying notifications, both
`send_plugin_notification_with_email_fallback` and
`send_rotation_notification` dispatch only the first qualifying
notification of the list and return its result. -/
theorem only_first_qualifying_notification_dispatched {δ : Type} (env : Env (CertData δ))
    (data : CertData δ) (notifications : List Notification) (ty : String)
    (certificate : Certificate) (n m : Notification) :
    (notifications.find? (fun x => x.active && !x.options.isEmpty) = some n →
      send_plugin_notification_with_email_fallback env data notifications ty =
        send_plugin_notification env ty { data with security_email := env.securityEmail }
          (env.recipients n.plugin.slug n.options env.securityEmail) n) ∧
    (certificate.notify = true →
      certificate.notifications.find?
        (fun x => x.active && !x.options.isEmpty && x.enable_rotation) = some m →
      send_rotation_notification env certificate data =
        send_plugin_notification env "rotation"
          { data with security_email := env.securityEmail }
          (env.recipients m.plugin.slug m.options []) m) := by
  constructor
  · intro hfind
    rcases filter_cons_of_find? hfind with ⟨t, hfil⟩
    unfold send_plugin_notification_with_email_fallback
    rw [hfil]
  · intro hnotify hfind
    unfold send_rotation_notification
    rw [hnotify, hfind]
    simp

/-- C10: after a completed `rotate_certificate`, the endpoint carries the
new certificate, the old certificate's notify flag is unset, exactly
those two rows are persisted via `database.update`, and no other field
of the endpoint or of the old certificate changes. -/
theorem rotate_certificate_effects
    (updateEndpointRaises : Endpoint → Certificate → Bool) (endpoint : Endpoint)
    (new_cert : Certificate) (e2 : Endpoint) (old2 : Certificate) (ops : List DbOp)
    (h : rotate_certificate updateEndpointRaises endpoint new_cert =
      Except.ok (e2, old2, ops)) :
    e2.certificate = new_cert ∧ old2.notify = false ∧
    ops = [DbOp.updateEndpoint e2, DbOp.updateCertificate old2] ∧
    e2.name = endpoint.name ∧ e2.dnsname = endpoint.dnsname ∧
    e2.source = endpoint.source ∧
    old2.name = endpoint.certificate.name ∧ old2.owner = endpoint.certificate.owner ∧
    old2.not_after = endpoint.certificate.not_after ∧
    old2.expired = endpoint.certificate.expired ∧
    old2.revoked = endpoint.certificate.revoked ∧
    old2.root_authority_id = endpoint.certificate.root_authority_id ∧
    old2.authority_id = endpoint.certificate.authority_id ∧
    old2.notifications = endpoint.certificate.notifications := by
  unfold rotate_certificate at h
  by_cases hr : updateEndpointRaises endpoint new_cert = true
  · rw [if_pos hr] at h
    cases h
  · rw [if_neg hr] at h
    injection h with h
    injection h with h1 h23
    injection h23 with h2 h3
    subst h1
    subst h2
    subst h3
    exact ⟨rfl, rfl, rfl, rfl, rfl, rfl, rfl, rfl, rfl, rfl, rfl, rfl, rfl, rfl⟩

/-- C8: on three eligible authority certificates of one owner ordered
365, 180, 365 days from expiry, the query returns all three but the
unsorted `groupby` grouping drops `certA`: the grouping keeps only
`certC` under interval 365 and `certB` under 180. -/
theorem authority_grouping_loses_certificate :
    get_expiring_authority_certificates [certA, certB, certC] 0 [365, 180] =
      Except.ok [certA, certB, certC] ∧
    get_eligible_authority_certificates [certA, certB, certC] 0 [365, 180] =
      Except.ok [("alice", [(365, [certC]), (180, [certB])])] ∧
    certA ∈ [certA, certB, certC] ∧ certA ∉ [certC] ∧ certA ∉ [certB] := by
  refine ⟨by rfl, by rfl, by decide, by decide, by decide⟩

/-- Witness for the C1 theorem at `cert30` and its 30-day notification. -/
theorem needs_expiration_notification_exact_match_witness :
    needs_expiration_notification 0 cert30 = Except.ok [notif30d] ∧
    (notif30d ∈ [notif30d] ↔ (notif30d.active = true ∧ notif30d.options ≠ [] ∧
      timedeltaDays (cert30.not_after - 0) = 30 * 1)) :=
  ⟨rfl, @needs_expiration_notification_exact_match 0 cert30 notif30d [notif30d] 30 "days" 1
    rfl (List.mem_cons_self _ _) rfl rfl rfl⟩

/-- Witness for the C2 theorem at an expired certificate. -/
theorem flagged_certificates_never_eligible_witness :
    get_certificates [cert30, certExpired] 0 [] = Except.ok [cert30] ∧
    get_expiring_authority_certificates [certExpired] 0 [365, 180] = Except.ok [] ∧
    certExpired ∉ [cert30] ∧ certExpired ∉ ([] : List Certificate) :=
  ⟨rfl, rfl,
    (@flagged_certificates_never_eligible [cert30, certExpired] 0 [] [365, 180] [cert30] []
      certExpired (Or.inl rfl)).1 rfl,
    (@flagged_certificates_never_eligible [certExpired] 0 [] [365, 180] [cert30] []
      certExpired (Or.inl rfl)).2 rfl⟩

/-- Witness for the C4 theorem: a successful non-email plugin send over
`envNat`. -/
theorem secondary_email_send_attempted_witness :
    notifRotation.plugin.slug ≠ "email-notification" ∧
    ∃ tr b, send_plugin_notification envNat "rotation" 0 ["r@example.com"] notifRotation =
      Except.ok (tr, b) ∧
      (⟨envNat.defaultPlugin, "rotation", 0, ["r@example.com"],
        some notifRotation.options⟩ : SendCall Nat) ∈ tr ∧
      (b = true ↔ envNat.sendRaises ⟨envNat.defaultPlugin, "rotation", 0, ["r@example.com"],
        some notifRotation.options⟩ = false) :=
  ⟨by decide,
    secondary_email_send_attempted envNat "rotation" 0 ["r@example.com"] notifRotation
      (by decide) rfl⟩

/-- Witness for the C5 theorem at `certBadUnit` with unit
`fortnights`. -/
theorem needs_expiration_notification_invalid_unit_raises_witness :
    isValidUnit (PyVal.str "fortnights") = false ∧
    (∃ e, needs_expiration_notification 0 certBadUnit = Except.error e) ∧
    (∃ e2, get_certificates [certBadUnit] 0 [] = Except.error e2) :=
  ⟨rfl,
    (@needs_expiration_notification_invalid_unit_raises 0 certBadUnit notifBadUnit
      (PyVal.str "fortnights") (List.mem_cons_self _ _) rfl (by decide) rfl rfl).1,
    (@needs_expiration_notification_invalid_unit_raises 0 certBadUnit notifBadUnit
      (PyVal.str "fortnights") (List.mem_cons_self _ _) rfl (by decide) rfl rfl).2
      [certBadUnit] [] (List.mem_cons_self _ _) (by decide)⟩

/-- Witness for the C6 theorem: `cert30` is eligible in a one-row
database. -/
theorem get_certificates_exact_witness :
    get_certificates [cert30] 0 [] = Except.ok [cert30] ∧ cert30 ∈ [cert30] :=
  ⟨rfl,
    (@get_certificates_exact [cert30] 0 [] [cert30] rfl cert30).mpr
      ⟨List.mem_cons_self _ _, rfl, rfl, rfl, by decide, by decide,
        [notif30d], rfl, by decide⟩⟩

/-- Witness for the C7 theorem: only an inactive notification is
attached. -/
theorem fallback_sends_owner_and_security_witness :
    ∃ b, send_plugin_notification_with_email_fallback envCD dataU [notifInactive] "failed" =
      Except.ok ([⟨envCD.defaultPlugin, "failed",
          { dataU with security_email := envCD.securityEmail },
          dataU.owner :: envCD.securityEmail, none⟩], b) ∧
      (b = true ↔ envCD.sendRaises ⟨envCD.defaultPlugin, "failed",
          { dataU with security_email := envCD.securityEmail },
          dataU.owner :: envCD.securityEmail, none⟩ = false) :=
  fallback_sends_owner_and_security envCD dataU [notifInactive] "failed" (by decide)

/-- Witness for the C9 theorem: two qualifying notifications, only the
first dispatched. -/
theorem only_first_qualifying_notification_dispatched_witness :
    (send_plugin_notification_with_email_fallback envCD dataU [notif30d, notifRotation]
        "failed" =
      send_plugin_notification envCD "failed"
        { dataU with security_email := envCD.securityEmail }
        (envCD.recipients notif30d.plugin.slug notif30d.options envCD.securityEmail)
        notif30d) ∧
    (send_rotation_notification envCD certRot dataU =
      send_plugin_notification envCD "rotation"
        { dataU with security_email := envCD.securityEmail }
        (envCD.recipients notifRotation.plugin.slug notifRotation.options [])
        notifRotation) :=
  ⟨(only_first_qualifying_notification_dispatched envCD dataU [notif30d, notifRotation]
      "failed" certRot notif30d notifRotation).1 rfl,
    (only_first_qualifying_notification_dispatched envCD dataU [notif30d, notifRotation]
      "failed" certRot notif30d notifRotation).2 rfl rfl⟩

/-- Witness for the C10 theorem: rotating `certNew` onto `endpoint0`. -/
theorem rotate_certificate_effects_witness :
    rotate_certificate (fun _ _ => false) endpoint0 certNew =
      Except.ok ({ endpoint0 with certificate := certNew },
        { cert30 with notify := false },
        [DbOp.updateEndpoint { endpoint0 with certificate := certNew },
          DbOp.updateCertificate { cert30 with notify := false }]) ∧
    ({ endpoint0 with certificate := certNew }).certificate = certNew ∧
    ({ cert30 with notify := false }).notify = false :=
  ⟨rfl,
    (rotate_certificate_effects (fun _ _ => false) endpoint0 certNew _ _ _ rfl).1,
    (rotate_certificate_effects (fun _ _ => false) endpoint0 certNew _ _ _ rfl).2.1⟩
